import Mathlib

/-!
Verification of the Nested Engagement & Visibility Engine of the
`social-media-backend` repository.

The embedding mirrors `src/models/Post.js` (the mongoose schema with its
statics/methods/virtuals) and the posts router (the second half of
`src/scripts/seedDatabase.js`, an Express router mounted at `/api/posts`).

Identifiers (`_id` of posts, comments, replies) and user references are
modelled as `Nat`; `mongoose.Types.ObjectId` equality (`.equals`) is `Nat`
equality.  `createdAt` timestamps are milliseconds-since-epoch as `Nat`.
A mongoose document array is a `List`; `array.push` is append at the end,
`array.pull(x)` removes every element equal to `x`, and `array.id(i)`
returns the first element whose identifier is `i`.
-/

namespace SocialMedia

/-- A reply subdocument (`replySchema`, Post.js lines 3-21): content,
author reference, list of liker ids, plus the timestamps added by
`{ timestamps: true }`. -/
structure Reply where
  id : Nat
  content : String
  author : Nat
  likes : List Nat
  createdAt : Nat
deriving DecidableEq

/-- A comment subdocument (`commentSchema`, Post.js lines 23-42): content,
author, liker ids, and an owned ordered list of replies. -/
structure Comment where
  id : Nat
  content : String
  author : Nat
  likes : List Nat
  replies : List Reply
  createdAt : Nat
deriving DecidableEq

/-- A post document (`postSchema`, Post.js lines 44-76).  The stored
fields are exactly these; `likesCount` and `commentsCount` are mongoose
virtuals (lines 85-92), derived on access and never persisted. -/
structure Post where
  id : Nat
  content : String
  images : List String
  author : Nat
  likes : List Nat
  comments : List Comment
  isHidden : Bool
  isDeleted : Bool
  createdAt : Nat
deriving DecidableEq

/-- Virtual `likesCount` (Post.js lines 85-87): current size of the likes
array. -/
def Post.likesCount (p : Post) : Nat := p.likes.length

/-- Virtual `commentsCount` (Post.js lines 90-92): current size of the
comments array. -/
def Post.commentsCount (p : Post) : Nat := p.comments.length

/-- The like/unlike transition repeated verbatim in `toggleLike`
(Post.js 186-192), `toggleCommentLike` (224-230) and `toggleReplyLike`
(274-280): if the actor is in the likes array, `pull` it (remove every
occurrence); otherwise `push` it (append at the end). -/
def toggleLikes (likes : List Nat) (userId : Nat) : List Nat :=
  if likes.contains userId then likes.filter (fun l => l != userId)
  else likes ++ [userId]

/-- `this.comments.id(commentId)` (mongoose `DocumentArray.id`): first
comment whose `_id` matches. -/
def Post.commentsId (p : Post) (commentId : Nat) : Option Comment :=
  p.comments.find? (fun c => c.id == commentId)

/-- `comment.replies.id(replyId)`: first reply whose `_id` matches. -/
def Comment.repliesId (c : Comment) (replyId : Nat) : Option Reply :=
  c.replies.find? (fun r => r.id == replyId)

/-- In-place mutation of the first element of a document array whose
identifier matches, leaving the rest untouched (what mutating the
subdocument returned by `.id(...)` does to the parent array). -/
def updateFirstById {α : Type} (getId : α → Nat) (i : Nat) (f : α → α) :
    List α → List α
  | [] => []
  | x :: xs =>
    if getId x == i then f x :: xs else x :: updateFirstById getId i f xs

/-- The mutation `toggleCommentLike` performs on the comment returned by
`comments.id(commentId)`: toggle the actor in its likes array. -/
def Comment.applyToggle (userId : Nat) (c : Comment) : Comment :=
  { c with likes := toggleLikes c.likes userId }

/-- The mutation `toggleReplyLike` performs on the reply returned by
`replies.id(replyId)`. -/
def Reply.applyToggle (userId : Nat) (r : Reply) : Reply :=
  { r with likes := toggleLikes r.likes userId }

/-- What `toggleReplyLike` does to the owning comment: toggle the actor
in the addressed reply in place. -/
def Comment.applyReplyToggle (replyId userId : Nat) (c : Comment) : Comment :=
  { c with
    replies := updateFirstById Reply.id replyId
      (Reply.applyToggle userId) c.replies }

/-- What `addReply` does to the owning comment: push the reply data. -/
def Comment.appendReply (rd : Reply) (c : Comment) : Comment :=
  { c with replies := c.replies ++ [rd] }

/-- `postSchema.methods.toggleLike` (Post.js 183-200): toggle the actor in
the post's own likes array. -/
def Post.toggleLike (p : Post) (userId : Nat) : Post :=
  { p with likes := toggleLikes p.likes userId }

/-- `postSchema.methods.addComment` (Post.js 203-212): push the comment
data onto the post's comments array. -/
def Post.addComment (p : Post) (commentData : Comment) : Post :=
  { p with comments := p.comments ++ [commentData] }

/-- `postSchema.methods.toggleCommentLike` (Post.js 215-238): locate the
comment by id (`throw 'Comment not found'` if absent), then toggle the
actor in that comment's likes array. -/
def Post.toggleCommentLike (p : Post) (commentId userId : Nat) :
    Except String Post :=
  match p.commentsId commentId with
  | none => .error "Comment not found"
  | some _ => .ok { p with
      comments := updateFirstById Comment.id commentId
        (Comment.applyToggle userId) p.comments }

/-- `postSchema.methods.addReply` (Post.js 241-256): locate the comment by
id (`throw 'Comment not found'` if absent), then push the reply data onto
that comment's replies array. -/
def Post.addReply (p : Post) (commentId : Nat) (replyData : Reply) :
    Except String Post :=
  match p.commentsId commentId with
  | none => .error "Comment not found"
  | some _ => .ok { p with
      comments := updateFirstById Comment.id commentId
        (Comment.appendReply replyData) p.comments }

/-- `postSchema.methods.toggleReplyLike` (Post.js 259-288): locate the
comment (`'Comment not found'` if absent), then the reply inside it
(`'Reply not found'` if absent), then toggle the actor in the reply's
likes array. -/
def Post.toggleReplyLike (p : Post) (commentId replyId userId : Nat) :
    Except String Post :=
  match p.commentsId commentId with
  | none => .error "Comment not found"
  | some c =>
    match c.repliesId replyId with
    | none => .error "Reply not found"
    | some _ => .ok { p with
        comments := updateFirstById Comment.id commentId
          (Comment.applyReplyToggle replyId userId) p.comments }

/-!
## Query layer: the feed (`findVisiblePosts`) and trending aggregation

`findVisiblePosts` (Post.js 103-180) runs `this.find(matchCriteria)
.sort(sortCriteria).skip(skip).limit(limit)` in MongoDB.  The sort
executes in the database over the *stored* documents.  The stored
top-level fields of a post document are exactly those declared in
`postSchema` (content, images, author, likes, comments, isHidden,
isDeleted, createdAt, updatedAt); `likesCount` and `commentsCount` are
virtuals and are not persisted, so a sort specification naming them reads
a missing field.  A missing field compares as BSON null, which sorts
below every number/date; two missing fields compare equal.

The trending route (router, seedDatabase.js concatenation lines 423-476)
instead runs an aggregation whose `$addFields` stage materialises
`likesCount`/`commentsCount` as `$size` of the arrays *before* its
`$sort`, so there the names do resolve.
-/

/-- BSON comparison of a field value that may be missing: missing (null)
sorts below every number, numbers compare numerically. -/
def bsonCmp : Option Nat → Option Nat → Ordering
  | none, none => .eq
  | none, some _ => .lt
  | some _, none => .gt
  | some a, some b => compare a b

/-- "a sorts no later than b" under a MongoDB sort specification listing
`fields` all in descending (`-1`) order, reading field values with `fv`:
compare field by field, larger values first, moving to the next field on
a tie. -/
def mongoDescLe (fv : Post → String → Option Nat) :
    List String → Post → Post → Bool
  | [], _, _ => true
  | f :: rest, a, b =>
    match bsonCmp (fv a f) (fv b f) with
    | .gt => true
    | .lt => false
    | .eq => mongoDescLe fv rest a b

/-- The sort comparator as a decidable relation (the model of the
database's sort order). -/
def mongoRel (fv : Post → String → Option Nat) (fields : List String)
    (a b : Post) : Prop :=
  mongoDescLe fv fields a b = true

instance (fv : Post → String → Option Nat) (fields : List String) :
    DecidableRel (mongoRel fv fields) := fun a b =>
  inferInstanceAs (Decidable (mongoDescLe fv fields a b = true))

/-- Top-level fields of the *stored* post document that appear in some
sort specification of `findVisiblePosts`.  Of `likesCount`,
`commentsCount`, `createdAt` only `createdAt` is a schema field;
the two count names are unpersisted virtuals, hence missing. -/
def storedField (p : Post) : String → Option Nat
  | "createdAt" => some p.createdAt
  | _ => none

/-- Fields visible to the `$sort` stage of the trending aggregation,
*after* its `$addFields` stage has materialised the counts from the
current arrays (seedDatabase.js concatenation lines 436-441). -/
def aggField (p : Post) : String → Option Nat
  | "likesCount" => some p.likes.length
  | "commentsCount" => some p.comments.length
  | "createdAt" => some p.createdAt
  | _ => none

/-- `sortCriteria` of `findVisiblePosts` (Post.js 136-146): the switch on
`sortBy`. -/
def sortFieldsFor : String → List String
  | "likes" => ["likesCount", "createdAt"]
  | "comments" => ["commentsCount", "createdAt"]
  | _ => ["createdAt"]

/-- `matchCriteria` of `findVisiblePosts` (Post.js 116-133): never
deleted; optionally restricted to one author; hidden posts only when the
requesting user is their author (`$or`), or never for anonymous
requests. -/
def matchesVisible (author? userId? : Option Nat) (p : Post) : Bool :=
  p.isDeleted == false &&
  (match author? with
   | some a => p.author == a
   | none => true) &&
  (match userId? with
   | some uid => p.isHidden == false || p.author == uid
   | none => p.isHidden == false)

/-- The filtered, database-sorted post sequence of `findVisiblePosts`,
before `skip`/`limit` are applied. -/
def visibleSorted (db : List Post) (author? userId? : Option Nat)
    (sortBy : String) : List Post :=
  (db.filter (matchesVisible author? userId?)).insertionSort
    (mongoRel storedField (sortFieldsFor sortBy))

/-- An element of the array `findVisiblePosts` resolves with: the post
spread plus the counts attached *after* the query from the current
arrays (Post.js 170-174). -/
structure FeedPost where
  post : Post
  likesCount : Nat
  commentsCount : Nat
deriving DecidableEq

/-- `postSchema.statics.findVisiblePosts` (Post.js 103-180):
`skip = (page - 1) * limit` (defaults `page = 1`, `limit = 10`), match,
sort, skip, limit, then attach the derived counts. -/
def findVisiblePosts (db : List Post) (page limit : Nat)
    (author? userId? : Option Nat) (sortBy : String) : List FeedPost :=
  (((visibleSorted db author? userId? sortBy).drop ((page - 1) * limit)
    ).take limit).map
    (fun p => ⟨p, p.likes.length, p.comments.length⟩)

/-- `$match` stage of the trending aggregation (lines 430-435): not
deleted, not hidden, created within the last 24 hours
(`createdAt >= now - 24*60*60*1000`), with no viewer-dependent branch. -/
def trendingMatch (now : Nat) (p : Post) : Bool :=
  p.isDeleted == false && p.isHidden == false &&
    (now - 24 * 60 * 60 * 1000 ≤ p.createdAt)

/-- Sort specification of the trending aggregation (line 443). -/
def trendingSortFields : List String :=
  ["likesCount", "commentsCount", "createdAt"]

/-- `GET /api/posts/trending` (lines 423-476): match, add count fields,
sort by them descending, truncate to `limit`.  The trailing
`$lookup`/`$unwind` only attach author display data (every post's
required `author` resolves), so they are not modelled. -/
def getTrendingPosts (db : List Post) (now limit : Nat) : List Post :=
  ((db.filter (trendingMatch now)).insertionSort
    (mongoRel aggField trendingSortFields)).take limit

/-!
## Visibility predicate and the route layer

`isVisible` is §4.4 of the specification, stated from its words so that
the code's two visibility paths (the `matchCriteria` of listings and the
hidden-check of the single-post routes) can be compared against it.
-/

/-- Spec definition (§4.4 Visibility Composer): a Post is visible iff
`isDeleted == false` and (`isHidden == false` or the viewer is the
author); an anonymous viewer (none) gets only non-hidden posts. -/
def isVisible (p : Post) (viewer? : Option Nat) : Bool :=
  p.isDeleted == false &&
    (p.isHidden == false ||
      (match viewer? with
       | some v => p.author == v
       | none => false))

/-- Outcome of a route handler: a post payload or an HTTP error with its
status and message. -/
inductive RouteResult where
  | ok (post : Post)
  | err (status : Nat) (message : String)
deriving DecidableEq

/-- The `getPost` middleware (router lines 390-416):
`Post.findOne({ _id: postId, isDeleted: false })`; replies 404
`'Post not found'` when nothing matches. -/
def getPost (db : List Post) (postId : Nat) : Option Post :=
  db.find? (fun p => p.id == postId && p.isDeleted == false)

/-- Mongoose `save` of a loaded aggregate: replace the document with the
same `_id` in the collection. -/
def saveDb (db : List Post) (p : Post) : List Post :=
  db.map (fun q => if q.id == p.id then p else q)

/-- The hidden-post accessibility check repeated in the engagement routes:
`post.isHidden && !post.author._id.equals(userId)`. -/
def hiddenFromUser (p : Post) (userId : Nat) : Bool :=
  p.isHidden && !(p.author == userId)

/-- JavaScript `String.prototype.trim()`: drop whitespace from both ends
(modelled with Lean's notion of whitespace characters). -/
def jsTrim (s : String) : String :=
  ⟨((s.data.dropWhile Char.isWhitespace).reverse.dropWhile
      Char.isWhitespace).reverse⟩

/-- `validateRequest` (middleware/auth.js 153-196) on a required text
field of maximal length `maxLen`: present, non-blank after trimming, and
within the length limit. -/
def contentValid (maxLen : Nat) (content : String) : Bool :=
  !(content == "") && !(jsTrim content == "") && content.length ≤ maxLen

/-- `GET /api/posts/:postId` (router lines 590-614): `getPost`, then 404
unless the post is non-hidden or the viewer is its author. -/
def getPostRoute (db : List Post) (postId : Nat) (viewer? : Option Nat) :
    RouteResult :=
  match getPost db postId with
  | none => .err 404 "Post not found"
  | some post =>
    if post.isHidden &&
        (match viewer? with
         | none => true
         | some u => !(post.author == u)) then
      .err 404 "Post not found"
    else .ok post

/-- `POST /api/posts/:postId/like` (router lines 806-847): `getPost`,
hidden check, then `post.toggleLike(userId)` and save.  Returns the
handler outcome together with the resulting collection state. -/
def likePostRoute (db : List Post) (postId userId : Nat) :
    RouteResult × List Post :=
  match getPost db postId with
  | none => (.err 404 "Post not found", db)
  | some post =>
    if hiddenFromUser post userId then (.err 404 "Post not found", db)
    else
      let post' := post.toggleLike userId
      (.ok post', saveDb db post')

/-- `POST /api/posts/:postId/comments` (router lines 896-944): `getPost`,
`validateRequest(commentValidation)` (required, ≤500), hidden check, then
`post.addComment({content: content.trim(), author})` and save.  `newId`
models the `_id` mongoose mints for the pushed subdocument, `now` its
timestamp. -/
def addCommentRoute (db : List Post) (postId userId : Nat)
    (content : String) (newId now : Nat) : RouteResult × List Post :=
  match getPost db postId with
  | none => (.err 404 "Post not found", db)
  | some post =>
    if !(contentValid 500 content) then
      (.err 400 "Validation failed", db)
    else if hiddenFromUser post userId then (.err 404 "Post not found", db)
    else
      let post' := post.addComment
        ⟨newId, jsTrim content, userId, [], [], now⟩
      (.ok post', saveDb db post')

/-- `POST /api/posts/:postId/comments/:commentId/like` (router lines
946-992): `getPost`, hidden check, then `post.toggleCommentLike`; the
catch maps the thrown `'Comment not found'` to a 404. -/
def commentLikeRoute (db : List Post) (postId commentId userId : Nat) :
    RouteResult × List Post :=
  match getPost db postId with
  | none => (.err 404 "Post not found", db)
  | some post =>
    if hiddenFromUser post userId then (.err 404 "Post not found", db)
    else
      match post.toggleCommentLike commentId userId with
      | .error msg => (.err 404 msg, db)
      | .ok post' => (.ok post', saveDb db post')

/-- `POST /api/posts/:postId/comments/:commentId/replies` (router lines
994-1047): `getPost`, `validateRequest(replyValidation)` (required,
≤200), hidden check, then `post.addReply(commentId, {content:
content.trim(), author})`; the catch maps `'Comment not found'` to a
404. -/
def addReplyRoute (db : List Post) (postId commentId userId : Nat)
    (content : String) (newId now : Nat) : RouteResult × List Post :=
  match getPost db postId with
  | none => (.err 404 "Post not found", db)
  | some post =>
    if !(contentValid 200 content) then
      (.err 400 "Validation failed", db)
    else if hiddenFromUser post userId then (.err 404 "Post not found", db)
    else
      match post.addReply commentId ⟨newId, jsTrim content, userId, [], now⟩ with
      | .error msg => (.err 404 msg, db)
      | .ok post' => (.ok post', saveDb db post')

/-- `POST /api/posts/:postId/comments/:commentId/replies/:replyId/like`
(router lines 1049-1095): `getPost`, hidden check, then
`post.toggleReplyLike`; the catch maps any `'... not found'` message to a
404 carrying that message. -/
def replyLikeRoute (db : List Post) (postId commentId replyId userId : Nat) :
    RouteResult × List Post :=
  match getPost db postId with
  | none => (.err 404 "Post not found", db)
  | some post =>
    if hiddenFromUser post userId then (.err 404 "Post not found", db)
    else
      match post.toggleReplyLike commentId replyId userId with
      | .error msg => (.err 404 msg, db)
      | .ok post' => (.ok post', saveDb db post')

/-- Whether a character sequence starts with something `.` (which does
not match a line terminator) can match. -/
def headNotNewline : List Char → Bool
  | [] => false
  | c :: _ => c != '\n'

/-- The regex `/^https?:\/\/.+/` of the create/update routes: an http(s)
scheme followed by at least one character that is not a newline. -/
def matchesUrlPattern (s : String) : Bool :=
  ("http://".data.isPrefixOf s.data && headNotNewline (s.data.drop 7)) ||
  ("https://".data.isPrefixOf s.data && headNotNewline (s.data.drop 8))

/-- `POST /api/posts` (router lines 616-682): after
`validateRequest(createPostValidation)` (content optional, ≤500), the
handler rejects a post whose trimmed content is empty when no image is
supplied, then checks the image count and URL shapes, then persists
`{content: content?.trim() || '', images, author}`. -/
def createPostRoute (db : List Post) (authorId : Nat)
    (content? : Option String) (images : List String) (newId now : Nat) :
    RouteResult × List Post :=
  if (match content? with
      | some c => !(c == "") && c.length > 500
      | none => false) then
    (.err 400 "Validation failed", db)
  else if ((content?.map jsTrim).getD "" == "") && images.isEmpty then
    (.err 400 "Post must have either content or images", db)
  else if images.length > 5 then
    (.err 400 "Maximum 5 images allowed per post", db)
  else if images.any (fun i => !(matchesUrlPattern i)) then
    (.err 400 "Invalid image URL", db)
  else
    let p : Post := ⟨newId, (content?.map jsTrim).getD "", images,
      authorId, [], [], false, false, now⟩
    (.ok p, db ++ [p])

/-- `GET /api/posts` (router lines 542-585): delegate to
`findVisiblePosts` with no author filter; the pagination object reports
`hasMore = (posts.length === limit)`, so a short page signals the end of
the feed. -/
def feedRoute (db : List Post) (user? : Option Nat) (page limit : Nat)
    (sortBy : String) : List FeedPost × Bool :=
  let posts := findVisiblePosts db page limit none user? sortBy
  (posts, posts.length == limit)

/-!
## Sample data for witnesses
-/

/-- Sample reply (id 88) with one prior liker. -/
def wReply : Reply := ⟨88, "thanks", 3, [9], 5⟩

/-- Sample comment (id 77) owning `wReply`. -/
def wComment : Comment := ⟨77, "nice", 2, [4], [wReply], 4⟩

/-- Sample visible post (id 1) owning `wComment`. -/
def wPost : Post := ⟨1, "hello", [], 100, [6], [wComment], false, false, 3⟩

/-- Sample hidden (not deleted) post, author 200. -/
def wHidden : Post := ⟨2, "mine", [], 200, [], [], true, false, 10⟩

/-- Sample soft-deleted post, author 200. -/
def wDeleted : Post := ⟨3, "gone", [], 200, [], [], false, true, 11⟩

/-- Older post with three likes (for the like-sort evaluations). -/
def wOldLiked : Post := ⟨4, "old", [], 100, [10, 11, 12], [], false, false, 1⟩

/-- Newer post with no likes (for the like-sort evaluations). -/
def wNewUnliked : Post := ⟨5, "new", [], 100, [], [], false, false, 2⟩

/-!
## Lemmas about the like-toggle transition
-/

theorem contains_iff_mem (l : List Nat) (a : Nat) : l.contains a ↔ a ∈ l :=
  List.elem_iff

/-- A single toggle flips the actor's own membership. -/
theorem mem_toggleLikes_self (l : List Nat) (a : Nat) :
    a ∈ toggleLikes l a ↔ a ∉ l := by
  unfold toggleLikes
  by_cases h : a ∈ l
  · rw [if_pos ((contains_iff_mem l a).mpr h)]
    simp [List.mem_filter, h]
  · rw [if_neg (fun hc => h ((contains_iff_mem l a).mp hc))]
    simp [h]

/-- A single toggle leaves every other user's membership unchanged. -/
theorem mem_toggleLikes_other (l : List Nat) (a x : Nat) (hx : x ≠ a) :
    x ∈ toggleLikes l a ↔ x ∈ l := by
  unfold toggleLikes
  by_cases h : a ∈ l
  · rw [if_pos ((contains_iff_mem l a).mpr h)]
    simp [List.mem_filter, hx]
  · rw [if_neg (fun hc => h ((contains_iff_mem l a).mp hc))]
    simp [hx]

/-- Two toggles by the same actor restore the liker set (as a set). -/
theorem mem_toggleLikes_toggleLikes (l : List Nat) (a x : Nat) :
    x ∈ toggleLikes (toggleLikes l a) a ↔ x ∈ l := by
  by_cases hx : x = a
  · subst hx
    rw [mem_toggleLikes_self, mem_toggleLikes_self]
    by_cases h : x ∈ l <;> simp [h]
  · rw [mem_toggleLikes_other _ _ _ hx, mem_toggleLikes_other _ _ _ hx]

/-!
## Lemmas about in-place subdocument update
-/

/-- Updating the subdocument found by `.id(i)` changes exactly what a
subsequent `.id(i)` lookup returns, provided the update keeps the
identifier. -/
theorem updateFirstById_find?_self {α : Type} (getId : α → Nat) (i : Nat)
    (f : α → α) (hf : ∀ x, getId (f x) = getId x) (l : List α) :
    (updateFirstById getId i f l).find? (fun c => getId c == i)
      = (l.find? (fun c => getId c == i)).map f := by
  induction l with
  | nil => rfl
  | cons x xs ih =>
    cases h : (getId x == i) with
    | true => simp [updateFirstById, h, List.find?_cons, hf]
    | false => simp [updateFirstById, h, List.find?_cons, ih]

/-- `toggleCommentLike` on an existing comment succeeds and replaces that
comment's liker list by its toggle. -/
theorem toggleCommentLike_ok (p : Post) (cid a : Nat) (c : Comment)
    (hc : p.commentsId cid = some c) :
    ∃ p', p.toggleCommentLike cid a = .ok p' ∧
      p'.commentsId cid = some (Comment.applyToggle a c) := by
  refine ⟨_, by unfold Post.toggleCommentLike; rw [hc], ?_⟩
  unfold Post.commentsId at *
  simp only
  rw [updateFirstById_find?_self Comment.id cid (Comment.applyToggle a)
    (fun x => rfl), hc]
  rfl

/-- `addReply` on an existing comment succeeds and appends the reply to
that comment's reply list. -/
theorem addReply_ok (p : Post) (cid : Nat) (rd : Reply) (c : Comment)
    (hc : p.commentsId cid = some c) :
    ∃ p', p.addReply cid rd = .ok p' ∧
      p'.commentsId cid = some (Comment.appendReply rd c) := by
  refine ⟨_, by unfold Post.addReply; rw [hc], ?_⟩
  unfold Post.commentsId at *
  simp only
  rw [updateFirstById_find?_self Comment.id cid (Comment.appendReply rd)
    (fun x => rfl), hc]
  rfl

/-- `toggleReplyLike` on an existing reply succeeds and replaces that
reply's liker list by its toggle, reachable under the same path. -/
theorem toggleReplyLike_ok (p : Post) (cid rid a : Nat) (c : Comment)
    (r : Reply) (hc : p.commentsId cid = some c)
    (hr : c.repliesId rid = some r) :
    ∃ p' c', p.toggleReplyLike cid rid a = .ok p' ∧
      p'.commentsId cid = some c' ∧
      c'.repliesId rid = some (Reply.applyToggle a r) := by
  refine ⟨_, Comment.applyReplyToggle rid a c,
    by unfold Post.toggleReplyLike; rw [hc]; simp only [hr]; rfl, ?_, ?_⟩
  · unfold Post.commentsId at *
    simp only
    rw [updateFirstById_find?_self Comment.id cid
      (Comment.applyReplyToggle rid a) (fun x => rfl), hc]
    rfl
  · unfold Comment.applyReplyToggle Comment.repliesId at *
    simp only
    rw [updateFirstById_find?_self Reply.id rid (Reply.applyToggle a)
      (fun x => rfl), hr]
    rfl

/-- C3: like-toggling is pair-idempotent at every nesting depth: toggling
twice with the same actor returns the resolved entity's liker set (as a
set of ids) to its pre-call state, for the post itself, for an existing
comment, and for an existing reply; a single application flips exactly
the actor's own membership. -/
theorem toggle_pair_idempotent (p : Post) (a cid rid : Nat) (c : Comment)
    (r : Reply) (hc : p.commentsId cid = some c)
    (hr : c.repliesId rid = some r) :
    (∀ x, x ∈ ((p.toggleLike a).toggleLike a).likes ↔ x ∈ p.likes) ∧
    ((a ∈ (p.toggleLike a).likes) ↔ a ∉ p.likes) ∧
    (∀ x, x ≠ a → ((x ∈ (p.toggleLike a).likes) ↔ x ∈ p.likes)) ∧
    (∃ p1 p2 c1 c2,
      p.toggleCommentLike cid a = .ok p1 ∧
      p1.toggleCommentLike cid a = .ok p2 ∧
      p1.commentsId cid = some c1 ∧ ((a ∈ c1.likes) ↔ a ∉ c.likes) ∧
      p2.commentsId cid = some c2 ∧ (∀ x, x ∈ c2.likes ↔ x ∈ c.likes)) ∧
    (∃ p1 p2 c1 c2 r1 r2,
      p.toggleReplyLike cid rid a = .ok p1 ∧
      p1.toggleReplyLike cid rid a = .ok p2 ∧
      p1.commentsId cid = some c1 ∧ c1.repliesId rid = some r1 ∧
      ((a ∈ r1.likes) ↔ a ∉ r.likes) ∧
      p2.commentsId cid = some c2 ∧ c2.repliesId rid = some r2 ∧
      (∀ x, x ∈ r2.likes ↔ x ∈ r.likes)) := by
  refine ⟨fun x => mem_toggleLikes_toggleLikes p.likes a x,
    mem_toggleLikes_self p.likes a,
    fun x hx => mem_toggleLikes_other p.likes a x hx, ?_, ?_⟩
  · obtain ⟨p1, h1, hc1⟩ := toggleCommentLike_ok p cid a c hc
    obtain ⟨p2, h2, hc2⟩ := toggleCommentLike_ok p1 cid a _ hc1
    exact ⟨p1, p2, _, _, h1, h2, hc1, mem_toggleLikes_self c.likes a, hc2,
      fun x => mem_toggleLikes_toggleLikes c.likes a x⟩
  · obtain ⟨p1, c1, h1, hc1, hr1⟩ := toggleReplyLike_ok p cid rid a c r hc hr
    obtain ⟨p2, c2, h2, hc2, hr2⟩ :=
      toggleReplyLike_ok p1 cid rid a c1 _ hc1 hr1
    exact ⟨p1, p2, c1, c2, _, _, h1, h2, hc1, hr1,
      mem_toggleLikes_self r.likes a, hc2, hr2,
      fun x => mem_toggleLikes_toggleLikes r.likes a x⟩

/-- Witness for C3 at a concrete post: actor 6 is already a post liker,
so one toggle removes them. -/
theorem toggle_pair_idempotent_witness :
    (6 ∈ (wPost.toggleLike 6).likes) ↔ 6 ∉ wPost.likes :=
  (toggle_pair_idempotent wPost 6 77 88 wComment wReply (by decide)
    (by decide)).2.1

/-- C6: `addReply` against a comment identifier absent from the post's
comments fails with the comment-level NotFound, and the reply route then
answers 404 `Comment not found` leaving the collection untouched
(nothing is appended or persisted). -/
theorem addReply_missing_comment (p : Post) (cid : Nat) (rd : Reply)
    (h : p.commentsId cid = none) :
    p.addReply cid rd = .error "Comment not found" ∧
    (∀ db pid uid content newId now, getPost db pid = some p →
      hiddenFromUser p uid = false → contentValid 200 content = true →
      addReplyRoute db pid cid uid content newId now
        = (.err 404 "Comment not found", db)) := by
  have hfail : ∀ rd' : Reply, p.addReply cid rd' = .error "Comment not found" :=
    fun rd' => by unfold Post.addReply; rw [h]
  refine ⟨hfail rd, fun db pid uid content newId now hfind hvis hval => ?_⟩
  unfold addReplyRoute
  simp only [hfind, hval, hvis, hfail, Bool.not_true, Bool.false_eq_true,
    if_false]

/-- Witness for C6: comment id 999 does not exist on `wPost`. -/
theorem addReply_missing_comment_witness :
    wPost.addReply 999 wReply = Except.error "Comment not found" ∧
    addReplyRoute [wPost] 1 999 5 "hi" 50 60
      = (.err 404 "Comment not found", [wPost]) := by
  have h := addReply_missing_comment wPost 999 wReply (by decide)
  exact ⟨h.1, h.2 [wPost] 1 5 "hi" 50 60 (by decide) (by decide) (by decide)⟩

/-- C7: `toggleReplyLike` distinguishes the depth at which path
resolution failed — NotFound(comment) when the comment id is absent,
NotFound(reply) when the comment exists but the reply id is absent — and
in either case the route answers 404 with that message and the
collection is unchanged. -/
theorem toggleReplyLike_depth_errors (p : Post) (cid rid uid : Nat)
    (db : List Post) (pid : Nat) (hfind : getPost db pid = some p)
    (hvis : hiddenFromUser p uid = false) :
    (p.commentsId cid = none →
      p.toggleReplyLike cid rid uid = .error "Comment not found" ∧
      replyLikeRoute db pid cid rid uid = (.err 404 "Comment not found", db)) ∧
    (∀ c, p.commentsId cid = some c → c.repliesId rid = none →
      p.toggleReplyLike cid rid uid = .error "Reply not found" ∧
      replyLikeRoute db pid cid rid uid = (.err 404 "Reply not found", db)) := by
  constructor
  · intro h
    have hfail : p.toggleReplyLike cid rid uid = .error "Comment not found" := by
      unfold Post.toggleReplyLike; rw [h]
    refine ⟨hfail, ?_⟩
    unfold replyLikeRoute
    simp only [hfind, hvis, hfail, Bool.false_eq_true, if_false]
  · intro c hc hr
    have hfail : p.toggleReplyLike cid rid uid = .error "Reply not found" := by
      unfold Post.toggleReplyLike; rw [hc]; simp only [hr]
    refine ⟨hfail, ?_⟩
    unfold replyLikeRoute
    simp only [hfind, hvis, hfail, Bool.false_eq_true, if_false]

/-- Witness for C7, exercising both failure depths on `wPost`. -/
theorem toggleReplyLike_depth_errors_witness :
    wPost.toggleReplyLike 999 88 5 = Except.error "Comment not found" ∧
    wPost.toggleReplyLike 77 999 5 = Except.error "Reply not found" :=
  ⟨((toggleReplyLike_depth_errors wPost 999 88 5 [wPost] 1 (by decide)
      (by decide)).1 (by decide)).1,
   ((toggleReplyLike_depth_errors wPost 77 999 5 [wPost] 1 (by decide)
      (by decide)).2 wComment (by decide) (by decide)).1⟩

/-!
## Order-theoretic facts about the sort comparator
-/

theorem bsonCmp_eq_iff (x y : Option Nat) : bsonCmp x y = .eq ↔ x = y := by
  cases x <;> cases y <;> simp [bsonCmp, Nat.compare_eq_eq]

theorem bsonCmp_gt_iff (x y : Option Nat) :
    bsonCmp x y = .gt ↔ bsonCmp y x = .lt := by
  cases x <;> cases y <;>
    simp [bsonCmp, Nat.compare_eq_gt, Nat.compare_eq_lt]

theorem bsonCmp_gt_trans {x y z : Option Nat} (h1 : bsonCmp x y = .gt)
    (h2 : bsonCmp y z = .gt) : bsonCmp x z = .gt := by
  cases x <;> cases y <;> cases z <;>
    simp_all [bsonCmp, Nat.compare_eq_gt]
  omega

/-- The database sort comparator is total. -/
theorem mongoDescLe_total (fv : Post → String → Option Nat) :
    ∀ (fields : List String) (a b : Post),
      mongoDescLe fv fields a b = true ∨ mongoDescLe fv fields b a = true
  | [], _, _ => Or.inl rfl
  | f :: rest, a, b => by
    unfold mongoDescLe
    rcases h1 : bsonCmp (fv a f) (fv b f) with _ | _ | _
    · right
      have h' : bsonCmp (fv b f) (fv a f) = .gt := (bsonCmp_gt_iff _ _).mpr h1
      simp only [h']
    · have e1 : fv a f = fv b f := (bsonCmp_eq_iff _ _).mp h1
      have h1' : bsonCmp (fv b f) (fv a f) = .eq := by
        rw [e1]
        exact (bsonCmp_eq_iff _ _).mpr rfl
      rcases mongoDescLe_total fv rest a b with ih | ih
      · left
        simp only [h1, ih]
      · right
        simp only [h1', ih]
    · left
      simp only [h1]

/-- The database sort comparator is transitive. -/
theorem mongoDescLe_trans (fv : Post → String → Option Nat) :
    ∀ (fields : List String) (a b c : Post),
      mongoDescLe fv fields a b = true → mongoDescLe fv fields b c = true →
      mongoDescLe fv fields a c = true
  | [], _, _, _, _, _ => rfl
  | f :: rest, a, b, c, hab, hbc => by
    unfold mongoDescLe at hab hbc ⊢
    rcases h1 : bsonCmp (fv a f) (fv b f) with _ | _ | _ <;>
      simp only [h1, Bool.false_eq_true] at hab
    · have e1 : fv a f = fv b f := (bsonCmp_eq_iff _ _).mp h1
      rcases h2 : bsonCmp (fv b f) (fv c f) with _ | _ | _ <;>
        simp only [h2, Bool.false_eq_true] at hbc
      · have hac : bsonCmp (fv a f) (fv c f) = .eq := by
          rw [e1]
          exact h2
        simp only [hac]
        exact mongoDescLe_trans fv rest a b c hab hbc
      · have hac : bsonCmp (fv a f) (fv c f) = .gt := by
          rw [e1]
          exact h2
        simp only [hac]
    · rcases h2 : bsonCmp (fv b f) (fv c f) with _ | _ | _ <;>
        simp only [h2, Bool.false_eq_true] at hbc
      · have e2 : fv b f = fv c f := (bsonCmp_eq_iff _ _).mp h2
        have hac : bsonCmp (fv a f) (fv c f) = .gt := by
          rw [← e2]
          exact h1
        simp only [hac]
      · simp only [bsonCmp_gt_trans h1 h2]

instance (fv : Post → String → Option Nat) (fields : List String) :
    IsTotal Post (mongoRel fv fields) :=
  ⟨fun a b => mongoDescLe_total fv fields a b⟩

instance (fv : Post → String → Option Nat) (fields : List String) :
    IsTrans Post (mongoRel fv fields) :=
  ⟨fun a b c => mongoDescLe_trans fv fields a b c⟩

/-- Unfolding the trending comparator (all three fields are materialised,
so it is exactly likes-count, then comments-count, then recency, each
descending). -/
theorem mongoRel_agg_imp (a b : Post)
    (h : mongoRel aggField trendingSortFields a b) :
    b.likes.length ≤ a.likes.length ∧
    (a.likes.length = b.likes.length →
      b.comments.length ≤ a.comments.length ∧
      (a.comments.length = b.comments.length → b.createdAt ≤ a.createdAt)) := by
  simp only [mongoRel, trendingSortFields, mongoDescLe, aggField, bsonCmp]
    at h
  rcases h1 : compare a.likes.length b.likes.length with _ | _ | _ <;>
    simp only [h1, Bool.false_eq_true] at h
  · have e1 := Nat.compare_eq_eq.mp h1
    rcases h2 : compare a.comments.length b.comments.length with _ | _ | _ <;>
      simp only [h2, Bool.false_eq_true] at h
    · have e2 := Nat.compare_eq_eq.mp h2
      rcases h3 : compare a.createdAt b.createdAt with _ | _ | _ <;>
        simp only [h3, Bool.false_eq_true] at h
      · have e3 := Nat.compare_eq_eq.mp h3
        exact ⟨by omega, fun _ => ⟨by omega, fun _ => by omega⟩⟩
      · have l3 := Nat.compare_eq_gt.mp h3
        exact ⟨by omega, fun _ => ⟨by omega, fun _ => by omega⟩⟩
    · have l2 := Nat.compare_eq_gt.mp h2
      exact ⟨by omega, fun _ => ⟨by omega, fun _ => by omega⟩⟩
  · have l1 := Nat.compare_eq_gt.mp h1
    exact ⟨by omega, fun _ => ⟨by omega, fun _ => by omega⟩⟩

/-- C8: the trending listing contains only posts created within the last
24 hours that are neither deleted nor hidden (there is no viewer-dependent
branch at all), is ordered by like-count, then comment-count, then
creation time, all descending, and is truncated to the requested
limit. -/
theorem trending_recent_visible_ordered (db : List Post) (now limit : Nat) :
    (∀ p ∈ getTrendingPosts db now limit,
      p.isDeleted = false ∧ p.isHidden = false ∧
      now - 24 * 60 * 60 * 1000 ≤ p.createdAt) ∧
    (getTrendingPosts db now limit).Pairwise (fun p1 p2 =>
      p2.likesCount ≤ p1.likesCount ∧
      (p1.likesCount = p2.likesCount →
        p2.commentsCount ≤ p1.commentsCount ∧
        (p1.commentsCount = p2.commentsCount →
          p2.createdAt ≤ p1.createdAt))) ∧
    (getTrendingPosts db now limit).length ≤ limit := by
  refine ⟨?_, ?_, List.length_take_le _ _⟩
  · intro p hp
    have hp1 : p ∈ (db.filter (trendingMatch now)).insertionSort
        (mongoRel aggField trendingSortFields) := List.mem_of_mem_take hp
    have hp2 : p ∈ db.filter (trendingMatch now) :=
      ((List.perm_insertionSort _ _).mem_iff).mp hp1
    have hm := List.of_mem_filter hp2
    simp only [trendingMatch, Bool.and_eq_true, beq_iff_eq,
      decide_eq_true_eq] at hm
    exact ⟨hm.1.1, hm.1.2, hm.2⟩
  · have hs := List.sorted_insertionSort
      (mongoRel aggField trendingSortFields) (db.filter (trendingMatch now))
    have hp := List.Pairwise.sublist (List.take_sublist limit _) hs
    exact hp.imp (fun h => mongoRel_agg_imp _ _ h)

/-- Witness for C8 at a concrete database: the trending listing is
truncated to the requested limit. -/
theorem trending_recent_visible_ordered_witness :
    (getTrendingPosts [wOldLiked, wNewUnliked] 2 1).length ≤ 1 :=
  (trending_recent_visible_ordered [wOldLiked, wNewUnliked] 2 1).2.2

/-!
## Visibility claims
-/

/-- C5: for a hidden, non-deleted post, the spec predicate grants
visibility exactly to the author (and denies the anonymous viewer), the
listing filter (feed and per-author) coincides with the spec predicate,
and the single-post route returns a found, non-deleted post exactly when
the spec predicate holds. -/
theorem hidden_post_visibility (p : Post) (hh : p.isHidden = true)
    (hd : p.isDeleted = false) :
    isVisible p (some p.author) = true ∧
    (∀ v, v ≠ p.author → isVisible p (some v) = false) ∧
    isVisible p none = false ∧
    (∀ (q : Post) (u? : Option Nat),
      matchesVisible none u? q = isVisible q u?) ∧
    (∀ (q : Post) (a : Nat) (u? : Option Nat),
      matchesVisible (some a) u? q = ((q.author == a) && isVisible q u?)) ∧
    (∀ (db : List Post) (pid : Nat) (u? : Option Nat) (q : Post),
      getPost db pid = some q →
      (getPostRoute db pid u? = .ok q ↔ isVisible q u? = true)) := by
  refine ⟨by simp [isVisible, hh, hd], ?_, by simp [isVisible, hh, hd],
    ?_, ?_, ?_⟩
  · intro v hv
    simp [isVisible, hh, hd]
    exact fun h => hv h.symm
  · intro q u?
    cases u? <;> cases hq : q.isDeleted <;> cases hq2 : q.isHidden <;>
      simp [matchesVisible, isVisible, hq, hq2]
  · intro q a u?
    cases u? <;> cases hq : q.isDeleted <;> cases hq2 : q.isHidden <;>
      simp [matchesVisible, isVisible, hq, hq2]
  · intro db pid u? q hq
    have hprops := List.find?_some hq
    simp only [Bool.and_eq_true, beq_iff_eq] at hprops
    have hqd : q.isDeleted = false := hprops.2
    unfold getPostRoute
    rw [hq]
    cases u? with
    | none =>
      cases hq2 : q.isHidden <;> simp [isVisible, hq2, hqd]
    | some u =>
      cases hq2 : q.isHidden <;> cases hau : q.author == u <;>
        simp [isVisible, hq2, hqd, hau]

/-- Witness for C5 on the concrete hidden post `wHidden` (author 200). -/
theorem hidden_post_visibility_witness :
    isVisible wHidden (some wHidden.author) = true ∧
    isVisible wHidden none = false :=
  ⟨(hidden_post_visibility wHidden rfl rfl).1,
   (hidden_post_visibility wHidden rfl rfl).2.2.1⟩

/-- C4: a deleted post is invisible to every viewer including its author:
the spec predicate denies it, it never appears in any feed or per-author
listing, and when every stored post under an id is deleted, single-post
retrieval answers 404 and the like mutation routed through that lookup
answers 404 leaving the collection unchanged. -/
theorem deleted_post_invisible (p : Post) (hdel : p.isDeleted = true) :
    (∀ v, isVisible p v = false) ∧
    (∀ db page limit a? u? s,
      p ∉ (findVisiblePosts db page limit a? u? s).map FeedPost.post) ∧
    (∀ db pid, (∀ q ∈ db, q.id = pid → q.isDeleted = true) →
      (∀ v, getPostRoute db pid v = .err 404 "Post not found") ∧
      (∀ u, likePostRoute db pid u = (.err 404 "Post not found", db))) := by
  refine ⟨fun v => by simp [isVisible, hdel], ?_, ?_⟩
  · intro db page limit a? u? s hmem
    simp only [List.mem_map] at hmem
    obtain ⟨fp, hfp, hfpp⟩ := hmem
    unfold findVisiblePosts at hfp
    simp only [List.mem_map] at hfp
    obtain ⟨q, hq, hmk⟩ := hfp
    have hq2 : q ∈ visibleSorted db a? u? s :=
      List.mem_of_mem_drop (List.mem_of_mem_take hq)
    have hq3 : q ∈ db.filter (matchesVisible a? u?) :=
      ((List.perm_insertionSort _ _).mem_iff).mp hq2
    have hm := List.of_mem_filter hq3
    have hqp : q = p := by
      have : fp.post = q := by rw [← hmk]
      rw [← hfpp, this]
    rw [hqp] at hm
    simp [matchesVisible, hdel] at hm
  · intro db pid hall
    have hnone : getPost db pid = none := by
      unfold getPost
      rw [List.find?_eq_none]
      intro q hq
      simp only [Bool.and_eq_true, beq_iff_eq, not_and]
      intro hid
      rw [hall q hq hid]
      simp
    exact ⟨fun v => by unfold getPostRoute; rw [hnone],
      fun u => by unfold likePostRoute; rw [hnone]⟩

/-- Witness for C4 on the concrete deleted post `wDeleted`. -/
theorem deleted_post_invisible_witness :
    isVisible wDeleted (some wDeleted.author) = false ∧
    getPostRoute [wDeleted] 3 (some 200) = .err 404 "Post not found" := by
  have h := deleted_post_invisible wDeleted rfl
  exact ⟨h.1 (some wDeleted.author),
    (h.2.2 [wDeleted] 3 (by decide)).1 (some 200)⟩

/-!
## Engagement gating, creation validation, feed window and sort claims
-/

/-- C10: on a hidden, non-deleted post, every engagement route invoked by
an authenticated non-author — like, add-comment, comment-like, add-reply —
answers 404 `Post not found` (not 403) and leaves the collection
unchanged, even with well-formed content. -/
theorem hidden_engagement_gated (p : Post) (hh : p.isHidden = true)
    (_hd : p.isDeleted = false) (db : List Post)
    (pid uid cid newId now : Nat) (content content2 : String)
    (hfind : getPost db pid = some p) (hne : p.author ≠ uid)
    (hval : contentValid 500 content = true)
    (hval2 : contentValid 200 content2 = true) :
    likePostRoute db pid uid = (.err 404 "Post not found", db) ∧
    addCommentRoute db pid uid content newId now
      = (.err 404 "Post not found", db) ∧
    commentLikeRoute db pid cid uid = (.err 404 "Post not found", db) ∧
    addReplyRoute db pid cid uid content2 newId now
      = (.err 404 "Post not found", db) := by
  have hgate : hiddenFromUser p uid = true := by
    simp [hiddenFromUser, hh]
    exact hne
  refine ⟨?_, ?_, ?_, ?_⟩ <;>
    simp [likePostRoute, addCommentRoute, commentLikeRoute, addReplyRoute,
      hfind, hgate, hval, hval2]

/-- Witness for C10: user 5 engaging with the hidden post of author 200. -/
theorem hidden_engagement_gated_witness :
    likePostRoute [wHidden] 2 5 = (.err 404 "Post not found", [wHidden]) ∧
    addCommentRoute [wHidden] 2 5 "ok" 70 71
      = (.err 404 "Post not found", [wHidden]) :=
  ⟨(hidden_engagement_gated wHidden rfl rfl [wHidden] 2 5 77 70 71 "ok" "ok"
      (by decide) (by decide) (by decide) (by decide)).1,
   (hidden_engagement_gated wHidden rfl rfl [wHidden] 2 5 77 70 71 "ok" "ok"
      (by decide) (by decide) (by decide) (by decide)).2.1⟩

/-- C9: creation with content that is empty after trimming and no images
fails with a 400 validation error and persists nothing; any post the
route accepts has non-empty (trimmed) content or at least one image, and
is appended to the collection with its content stored trimmed. -/
theorem createPost_requires_substance (db : List Post) (authorId : Nat)
    (content? : Option String) (images : List String) (newId now : Nat) :
    ((content?.map jsTrim).getD "" = "" → images = [] →
      ∃ msg, createPostRoute db authorId content? images newId now
        = (.err 400 msg, db)) ∧
    (∀ p db', createPostRoute db authorId content? images newId now
        = (.ok p, db') →
      ¬(p.content = "" ∧ p.images = []) ∧
      p.content = (content?.map jsTrim).getD "" ∧ p.images = images ∧
      db' = db ++ [p]) := by
  constructor
  · intro h1 h2
    unfold createPostRoute
    split_ifs with h1' h2'
    · exact ⟨"Validation failed", rfl⟩
    · exact ⟨"Post must have either content or images", rfl⟩
    all_goals exact absurd (by simp [h1, h2]) h2'
  · intro p db' h
    unfold createPostRoute at h
    split_ifs at h with h1' h2' h3' h4'
    · exact absurd h (by simp)
    · exact absurd h (by simp)
    · exact absurd h (by simp)
    · exact absurd h (by simp)
    · simp only [Prod.mk.injEq, RouteResult.ok.injEq] at h
      obtain ⟨hok, hdb⟩ := h
      subst hok
      refine ⟨?_, rfl, rfl, hdb.symm⟩
      rintro ⟨e1, e2⟩
      refine h2' ?_
      have e1' : (Option.map jsTrim content?).getD "" = "" := e1
      have e2' : images = [] := e2
      simp [e1', e2']

/-- Witness for C9: blank content and no images are rejected with a 400
and the empty collection stays empty. -/
theorem createPost_requires_substance_witness :
    ∃ msg, createPostRoute [] 7 (some "   ") [] 42 9 = (.err 400 msg, []) :=
  (createPost_requires_substance [] 7 (some "   ") [] 42 9).1 (by decide) rfl

/-- C1 (code defect): with `sortBy = 'likes'` the database sorts on the
field `likesCount`, which the stored documents do not have (it is an
unpersisted mongoose virtual, attached only after the query), so the
comparator degenerates to recency: concretely, the feed returns the newer
0-like post before the older 3-like post, violating the claimed
like-count ordering, and the likes-sort comparator is literally the
recency comparator. -/
theorem feed_likes_sort_ignores_likes :
    (findVisiblePosts [wOldLiked, wNewUnliked] 1 10 none none "likes").map
        (fun fp => (fp.post.id, fp.likesCount)) = [(5, 0), (4, 3)] ∧
    (∀ a b : Post, mongoDescLe storedField (sortFieldsFor "likes") a b
      = mongoDescLe storedField (sortFieldsFor "createdAt") a b) := by
  constructor
  · decide
  · intro a b
    rfl

/-- C2 counterexample: with two visible posts, `page = 1`, `pageSize = 1`,
the code returns the element at offset 0 of the sorted sequence, not the
element at offset `page * pageSize = 1` the zero-based reading claims. -/
theorem feed_page_window_counterexample :
    (findVisiblePosts [wOldLiked, wNewUnliked] 1 1 none none
        "createdAt").map (fun fp => fp.post.id) = [5] ∧
    (((visibleSorted [wOldLiked, wNewUnliked] none none "createdAt").drop
        (1 * 1)).take 1).map Post.id = [4] ∧
    (findVisiblePosts [wOldLiked, wNewUnliked] 1 1 none none
        "createdAt").map (fun fp => fp.post.id)
      ≠ (((visibleSorted [wOldLiked, wNewUnliked] none none
        "createdAt").drop (1 * 1)).take 1).map Post.id := by
  refine ⟨by decide, by decide, by decide⟩

/-- C2 (amended): the page window is one-based — for page `p ≥ 1` the
route returns the elements at offsets `(p-1)*n` through `(p-1)*n + n - 1`
of the filtered, sorted sequence — and a result shorter than `pageSize`
means the sequence is exhausted; the route reports
`hasMore = (length == pageSize)`. -/
theorem feed_page_window_one_based (db : List Post) (page limit : Nat)
    (u? : Option Nat) (sortBy : String) (_hpage : 1 ≤ page) :
    (∀ i : Nat,
      ((findVisiblePosts db page limit none u? sortBy)[i]?).map
          FeedPost.post
        = if i < limit
          then (visibleSorted db none u? sortBy)[(page - 1) * limit + i]?
          else none) ∧
    ((findVisiblePosts db page limit none u? sortBy).length < limit →
      (visibleSorted db none u? sortBy).length
        ≤ (page - 1) * limit
          + (findVisiblePosts db page limit none u? sortBy).length) ∧
    (feedRoute db u? page limit sortBy).2
      = ((findVisiblePosts db page limit none u? sortBy).length
          == limit) := by
  have hlen : (findVisiblePosts db page limit none u? sortBy).length
      = min limit
        ((visibleSorted db none u? sortBy).length - (page - 1) * limit) := by
    simp [findVisiblePosts, List.length_take, List.length_drop]
  refine ⟨?_, ?_, rfl⟩
  · intro i
    unfold findVisiblePosts
    rw [List.getElem?_map, Option.map_map]
    have hcomp : (FeedPost.post ∘ fun p : Post =>
        (⟨p, p.likes.length, p.comments.length⟩ : FeedPost)) = id := rfl
    rw [hcomp, Option.map_id, List.getElem?_take]
    split
    · rw [List.getElem?_drop]
      rfl
    · rfl
  · intro hlt
    omega

/-- Witness for C2's amended window at `page = 1`, `pageSize = 1`: the
single returned post is the element at offset 0. -/
theorem feed_page_window_one_based_witness :
    ((findVisiblePosts [wOldLiked, wNewUnliked] 1 1 none none
        "createdAt")[0]?).map FeedPost.post
      = if 0 < 1
        then (visibleSorted [wOldLiked, wNewUnliked] none none
          "createdAt")[(1 - 1) * 1 + 0]?
        else none :=
  (feed_page_window_one_based [wOldLiked, wNewUnliked] 1 1 none "createdAt"
    (by decide)).1 0

end SocialMedia
